import Mathlib

/-!
Verification of the two tutorial notebooks in this repository
(`src/pybamm.ipynb` and `src/unnamed/part_000`).

Each notebook is a sequence of twelve code cells that call into the
external `pybamm` library.  We embed:

* the verbatim source text of every code cell of both notebooks,
* an abstract syntax tree of the (shared) twelve-cell program, restricted
  to exactly the Python constructs those cells use, and
* a deterministic interpreter producing a trace of library-call events,
  with heaps for the library objects the cells create (models,
  simulations, parameter-value containers, solutions), so that mutation
  (solving a simulation, overwriting a parameter entry) and aliasing are
  represented faithfully.

The external library's numerics are out of scope (the spec's stance as
well): a `solve` call is modelled as the event it is, together with the
state change observable from the notebook (the simulation becomes solved
and a solution object carrying the supplied time span and inputs is
returned).  The `Chen2020` parameter dictionary is transcribed from the
recorded output of the notebook cell that prints it, which is part of the
repository.
-/

namespace Notebook

/-- The three lithium-ion model classes instantiated by the notebooks. -/
inductive ModelKind where
  | spm
  | spme
  | dfn
deriving DecidableEq, Repr

/-- A decimal number literal, recorded exactly as the source (or the
recorded cell output) spells it: the printed digits `mant` and the power
of ten `exp` of the last printed digit, denoting `mant * 10 ^ exp`
(so `298.15` is `Dec.mk 29815 (-2)` and `1.380649e-23` is
`Dec.mk 1380649 (-29)`).  A structural representation is used so that
equality of transcribed values is decidable by evaluation. -/
structure Dec where
  mant : ℤ
  exp : ℤ
deriving DecidableEq, Repr

/-- The rational number a decimal literal denotes. -/
def Dec.toRat (d : Dec) : ℚ := (d.mant : ℚ) * (10 : ℚ) ^ d.exp

/-- Atomic runtime values: numbers, strings, Python function objects
(which occur as entries of parameter sets), references into the object
heaps, and pairs (the one tuple literal the notebooks contain is a pair
of strings). -/
inductive Atom where
  | int (n : ℤ)
  | num (d : Dec)
  | str (s : String)
  | fn (name : String)
  | modelRef (id : ℕ)
  | simRef (id : ℕ)
  | pvRef (id : ℕ)
  | solRef (id : ℕ)
  | pair (a b : Atom)
deriving DecidableEq, Repr

/-- Runtime values: an atom, a Python list or dict of atoms (every list
and dict the notebooks build contains only atomic values), or one of the
opaque results of the plotting / inspection calls. -/
inductive Value where
  | atom (a : Atom)
  | vlist (xs : List Atom)
  | vdict (entries : List (String × Atom))
  | quickPlot
  | submodelsOf (kind : ModelKind)
  | pyNone
deriving DecidableEq, Repr

/-- An entry of a `pybamm.ParameterValues` container, in the shapes the
recorded `print(parameter_values)` output exhibits: floats, ints,
functions, a list of strings (the `citations` entry) and plain strings
(the `"[input]"` marker assigned by the sweep cell). -/
inductive PEntry where
  | num (d : Dec)
  | int (n : ℤ)
  | fn (name : String)
  | strs (xs : List String)
  | str (s : String)
deriving DecidableEq, Repr

/-- Atomic expressions: literals, variable references, the two-string
tuple literal, and the f-string used for the sweep labels. -/
inductive AExpr where
  | intLit (n : ℤ)
  | numLit (d : Dec)
  | strLit (s : String)
  | var (x : String)
  | tupleLit (x y : AExpr)
  | fstr (pre : String) (x : String) (post : String)
deriving DecidableEq, Repr

/-- An argument to a library call: an atomic expression, a list literal,
or a dict literal (keys in the notebooks are always string literals). -/
inductive KwVal where
  | a (e : AExpr)
  | list (xs : List AExpr)
  | dict (entries : List (String × AExpr))
deriving DecidableEq, Repr

/-- A call into the external `pybamm` library, with the argument shapes
that occur in the notebooks.  `solve`, `plotMethod` and `submodelsAttr`
are method calls / attribute accesses on the object bound to `obj`. -/
inductive CallE where
  | model (kind : ModelKind) (name : Option AExpr) (options : Option KwVal)
  | simulation (model : AExpr) (parameterValues : Option AExpr)
  | parameterValues (setName : AExpr)
  | solve (obj : String) (tspan : KwVal) (inputs : Option KwVal)
  | plotMethod (obj : String) (vars : Option KwVal)
  | dynamicPlot (arg : AExpr) (labels : Option AExpr) (outputVariables : Option KwVal)
  | submodelsAttr (obj : String)
deriving DecidableEq, Repr

/-- Right-hand-side expressions of the notebooks' statements. -/
inductive Expr where
  | a (e : AExpr)
  | list (xs : List AExpr)
  | call (c : CallE)
  | listOfCalls (cs : List CallE)
deriving DecidableEq, Repr

/-- The simple (non-compound) statements of the notebooks: assignment,
subscript assignment on a parameter-value container, a bare expression,
`print`, and `list.append`. -/
inductive SimpleStmt where
  | assign (x : String) (e : Expr)
  | setIndex (x : String) (key : AExpr) (v : AExpr)
  | exprS (e : Expr)
  | printS (e : Expr)
  | append (x : String) (e : Expr)
deriving DecidableEq, Repr

/-- Statements.  The loop bodies occurring in the notebooks contain only
simple statements.  `tryExcept`, `funcDef` and `classDef` are part of
the grammar so that their absence from the program is a meaningful,
checkable property. -/
inductive Stmt where
  | importPybamm
  | simple (s : SimpleStmt)
  | forIn (x : String) (iter : Expr) (body : List SimpleStmt)
  | forRange (x : String) (lo hi : ℤ) (body : List SimpleStmt)
  | tryExcept (body handlers : List SimpleStmt)
  | funcDef (name : String) (params : List String) (body : List SimpleStmt)
  | classDef (name : String) (body : List SimpleStmt)
deriving DecidableEq, Repr

/-- A model object: its class and the constructor arguments recorded on it. -/
structure ModelObj where
  kind : ModelKind
  name : Option String
  options : List (String × Atom)
deriving DecidableEq, Repr

/-- A simulation object: the model it was built from, the
parameter-value container it was given (if any), and whether `solve`
has been called on it. -/
structure SimObj where
  modelId : ℕ
  pvId : Option ℕ
  solved : Bool
deriving DecidableEq, Repr

/-- A parameter-value container: the name of the built-in set it was
constructed from and its entries.  `entries = none` means the contents of
that set are not recorded anywhere in this repository (the `Ai2020` set);
the `Chen2020` contents are transcribed from the printed cell output. -/
structure PvObj where
  setName : String
  entries : Option (List (String × PEntry))
deriving DecidableEq, Repr

/-- A solution object: which simulation produced it, with which time
span and which `inputs` dictionary. -/
structure SolObj where
  simId : ℕ
  tspan : List Atom
  inputs : List (String × Atom)
deriving DecidableEq, Repr

/-- The events of a library call trace. -/
inductive Event where
  | evModel (id : ℕ) (kind : ModelKind)
  | evSimulation (simId : ℕ) (modelId : ℕ) (pvId : Option ℕ)
  | evParameterValues (pvId : ℕ) (setName : String)
  | evSetParam (pvId : ℕ) (key : String) (v : PEntry)
  | evSolve (simId : ℕ) (solId : ℕ) (tspan : List Atom) (inputs : List (String × Atom))
  | evPlot (simId : ℕ) (solvedAtCall : Bool)
  | evSolutionPlot (solId : ℕ) (vars : List String)
  | evDynamicPlot (args : List Atom) (labels : Option (List String))
      (outputVariables : Option (List String)) (allSolvedAtCall : Bool)
  | evSubmodels (modelId : ℕ) (kind : ModelKind)
  | evPrint
deriving DecidableEq, Repr

/-- Interpreter state: the single global namespace of the notebook and
the four object heaps, plus the trace of library calls made so far. -/
structure State where
  env : List (String × Value)
  models : List ModelObj
  sims : List SimObj
  pvs : List PvObj
  sols : List SolObj
  trace : List Event
deriving DecidableEq, Repr

/-- Update an association list at a key, keeping the position of an
existing binding (Python dict / namespace update semantics). -/
def setEntry {α : Type} : List (String × α) → String → α → List (String × α)
  | [], k, v => [(k, v)]
  | (k', v') :: rest, k, v =>
      if k' = k then (k, v) :: rest else (k', v') :: setEntry rest k v

/-- Bind a variable in the notebook namespace. -/
def State.setVar (st : State) (x : String) (v : Value) : State :=
  { st with env := setEntry st.env x v }

/-- Append an event to the trace. -/
def State.emit (st : State) (e : Event) : State :=
  { st with trace := st.trace ++ [e] }

/-- Convert a value to the string Python's f-string interpolation would
produce for it (only integers are interpolated in the notebooks). -/
def pyFormat : Value → Option String
  | .atom (.int n) => some (toString n)
  | .atom (.str s) => some s
  | _ => none

/-- Evaluate an atomic expression (pure). -/
def evalA (st : State) : AExpr → Option Value
  | .intLit n => some (.atom (.int n))
  | .numLit d => some (.atom (.num d))
  | .strLit s => some (.atom (.str s))
  | .var x => st.env.lookup x
  | .tupleLit x y => do
      let vx ← evalA st x
      let vy ← evalA st y
      match vx, vy with
      | .atom ax, .atom ay => some (.atom (.pair ax ay))
      | _, _ => none
  | .fstr pre x post => do
      let v ← st.env.lookup x
      let s ← pyFormat v
      some (.atom (.str (pre ++ s ++ post)))

/-- Extract the atom from an atomic value. -/
def coerceAtom : Value → Option Atom
  | .atom a => some a
  | _ => none

/-- Evaluate a call argument (pure). -/
def evalKw (st : State) : KwVal → Option Value
  | .a e => evalA st e
  | .list xs => do
      let vs ← xs.mapM (evalA st)
      let atoms ← vs.mapM coerceAtom
      some (.vlist atoms)
  | .dict entries => do
      let es ← entries.mapM (fun p => do
        let v ← evalA st p.2
        let a ← coerceAtom v
        some (p.1, a))
      some (.vdict es)

/-- View a list of atoms as a list of strings. -/
def atomsToStrings (xs : List Atom) : Option (List String) :=
  xs.mapM (fun a => match a with | .str s => some s | _ => none)

/-- A parameter entry as which an assigned value is stored. -/
def toPEntry : Atom → Option PEntry
  | .int n => some (.int n)
  | .num d => some (.num d)
  | .str s => some (.str s)
  | _ => none

/-- Is this atom, at the given state, a solved simulation or a solution
object (i.e. something `pybamm.dynamic_plot` can render)? -/
def solvedAtom (st : State) : Atom → Bool
  | .simRef i =>
      match st.sims.get? i with
      | some o => o.solved
      | none => false
  | .solRef _ => true
  | _ => false

/-- Evaluate an optional atomic argument to an optional string. -/
def evalOptName (st : State) : Option AExpr → Option (Option String)
  | none => some none
  | some e => do
      let v ← evalA st e
      match v with
      | .atom (.str s) => some (some s)
      | _ => none

/-- Evaluate an optional keyword argument to dict entries ([] if absent). -/
def evalOptDict (st : State) : Option KwVal → Option (List (String × Atom))
  | none => some []
  | some k => do
      let v ← evalKw st k
      match v with
      | .vdict es => some es
      | _ => none

/-- Evaluate an optional keyword argument to a list of strings. -/
def evalOptStrList (st : State) : Option KwVal → Option (Option (List String))
  | none => some none
  | some k => do
      let v ← evalKw st k
      match v with
      | .vlist xs => do
          let ss ← atomsToStrings xs
          some (some ss)
      | _ => none

/-- The `Chen2020` parameter set, transcribed entry for entry from the
output of the notebook cell `print(parameter_values)` recorded in the
repository. -/
def chen2020 : List (String × PEntry) := [
  ("Ambient temperature [K]", PEntry.num (Dec.mk 29815 (-2))),
  ("Boltzmann constant [J.K-1]", PEntry.num (Dec.mk 1380649 (-29))),
  ("Bulk solvent concentration [mol.m-3]", PEntry.num (Dec.mk 26360 (-1))),
  ("Cation transference number", PEntry.num (Dec.mk 2594 (-4))),
  ("Cell cooling surface area [m2]", PEntry.num (Dec.mk 531 (-5))),
  ("Cell thermal expansion coefficient [m.K-1]", PEntry.num (Dec.mk 11 (-7))),
  ("Cell volume [m3]", PEntry.num (Dec.mk 242 (-7))),
  ("Contact resistance [Ohm]", PEntry.int 0),
  ("Current function [A]", PEntry.num (Dec.mk 50 (-1))),
  ("EC diffusivity [m2.s-1]", PEntry.num (Dec.mk 2 (-18))),
  ("EC initial concentration in electrolyte [mol.m-3]", PEntry.num (Dec.mk 45410 (-1))),
  ("Electrode height [m]", PEntry.num (Dec.mk 65 (-3))),
  ("Electrode width [m]", PEntry.num (Dec.mk 158 (-2))),
  ("Electrolyte conductivity [S.m-1]", PEntry.fn "electrolyte_conductivity_Nyman2008"),
  ("Electrolyte diffusivity [m2.s-1]", PEntry.fn "electrolyte_diffusivity_Nyman2008"),
  ("Electron charge [C]", PEntry.num (Dec.mk 1602176634 (-28))),
  ("Faraday constant [C.mol-1]", PEntry.num (Dec.mk 9648533212 (-5))),
  ("Ideal gas constant [J.K-1.mol-1]", PEntry.num (Dec.mk 8314462618 (-9))),
  ("Initial concentration in electrolyte [mol.m-3]", PEntry.num (Dec.mk 10000 (-1))),
  ("Initial concentration in negative electrode [mol.m-3]", PEntry.num (Dec.mk 298660 (-1))),
  ("Initial concentration in positive electrode [mol.m-3]", PEntry.num (Dec.mk 170380 (-1))),
  ("Initial inner SEI thickness [m]", PEntry.num (Dec.mk 25 (-10))),
  ("Initial outer SEI thickness [m]", PEntry.num (Dec.mk 25 (-10))),
  ("Initial temperature [K]", PEntry.num (Dec.mk 29815 (-2))),
  ("Inner SEI electron conductivity [S.m-1]", PEntry.num (Dec.mk 895 (-16))),
  ("Inner SEI lithium interstitial diffusivity [m2.s-1]", PEntry.num (Dec.mk 1 (-20))),
  ("Inner SEI open-circuit potential [V]", PEntry.num (Dec.mk 1 (-1))),
  ("Inner SEI partial molar volume [m3.mol-1]", PEntry.num (Dec.mk 9585 (-8))),
  ("Inner SEI reaction proportion", PEntry.num (Dec.mk 5 (-1))),
  ("Lithium interstitial reference concentration [mol.m-3]", PEntry.num (Dec.mk 150 (-1))),
  ("Lower voltage cut-off [V]", PEntry.num (Dec.mk 25 (-1))),
  ("Maximum concentration in negative electrode [mol.m-3]", PEntry.num (Dec.mk 331330 (-1))),
  ("Maximum concentration in positive electrode [mol.m-3]", PEntry.num (Dec.mk 631040 (-1))),
  ("Negative current collector conductivity [S.m-1]", PEntry.num (Dec.mk 584110000 (-1))),
  ("Negative current collector density [kg.m-3]", PEntry.num (Dec.mk 89600 (-1))),
  ("Negative current collector specific heat capacity [J.kg-1.K-1]", PEntry.num (Dec.mk 3850 (-1))),
  ("Negative current collector thermal conductivity [W.m-1.K-1]", PEntry.num (Dec.mk 4010 (-1))),
  ("Negative current collector thickness [m]", PEntry.num (Dec.mk 12 (-6))),
  ("Negative electrode Bruggeman coefficient (electrode)", PEntry.int 0),
  ("Negative electrode Bruggeman coefficient (electrolyte)", PEntry.num (Dec.mk 15 (-1))),
  ("Negative electrode OCP [V]", PEntry.fn "graphite_LGM50_ocp_Chen2020"),
  ("Negative electrode OCP entropic change [V.K-1]", PEntry.num (Dec.mk 0 (-1))),
  ("Negative electrode active material volume fraction", PEntry.num (Dec.mk 75 (-2))),
  ("Negative electrode charge transfer coefficient", PEntry.num (Dec.mk 5 (-1))),
  ("Negative electrode conductivity [S.m-1]", PEntry.num (Dec.mk 2150 (-1))),
  ("Negative electrode density [kg.m-3]", PEntry.num (Dec.mk 16570 (-1))),
  ("Negative electrode diffusivity [m2.s-1]", PEntry.num (Dec.mk 33 (-15))),
  ("Negative electrode double-layer capacity [F.m-2]", PEntry.num (Dec.mk 2 (-1))),
  ("Negative electrode exchange-current density [A.m-2]", PEntry.fn "graphite_LGM50_electrolyte_exchange_current_density_Chen2020"),
  ("Negative electrode porosity", PEntry.num (Dec.mk 25 (-2))),
  ("Negative electrode reaction-driven LAM factor [m3.mol-1]", PEntry.num (Dec.mk 0 (-1))),
  ("Negative electrode specific heat capacity [J.kg-1.K-1]", PEntry.num (Dec.mk 7000 (-1))),
  ("Negative electrode thermal conductivity [W.m-1.K-1]", PEntry.num (Dec.mk 17 (-1))),
  ("Negative electrode thickness [m]", PEntry.num (Dec.mk 852 (-7))),
  ("Negative particle radius [m]", PEntry.num (Dec.mk 586 (-8))),
  ("Nominal cell capacity [A.h]", PEntry.num (Dec.mk 50 (-1))),
  ("Number of cells connected in series to make a battery", PEntry.num (Dec.mk 10 (-1))),
  ("Number of electrodes connected in parallel to make a cell", PEntry.num (Dec.mk 10 (-1))),
  ("Outer SEI open-circuit potential [V]", PEntry.num (Dec.mk 8 (-1))),
  ("Outer SEI partial molar volume [m3.mol-1]", PEntry.num (Dec.mk 9585 (-8))),
  ("Outer SEI solvent diffusivity [m2.s-1]", PEntry.num (Dec.mk 25000000000000002 (-38))),
  ("Positive current collector conductivity [S.m-1]", PEntry.num (Dec.mk 369140000 (-1))),
  ("Positive current collector density [kg.m-3]", PEntry.num (Dec.mk 27000 (-1))),
  ("Positive current collector specific heat capacity [J.kg-1.K-1]", PEntry.num (Dec.mk 8970 (-1))),
  ("Positive current collector thermal conductivity [W.m-1.K-1]", PEntry.num (Dec.mk 2370 (-1))),
  ("Positive current collector thickness [m]", PEntry.num (Dec.mk 16 (-6))),
  ("Positive electrode Bruggeman coefficient (electrode)", PEntry.int 0),
  ("Positive electrode Bruggeman coefficient (electrolyte)", PEntry.num (Dec.mk 15 (-1))),
  ("Positive electrode OCP [V]", PEntry.fn "nmc_LGM50_ocp_Chen2020"),
  ("Positive electrode OCP entropic change [V.K-1]", PEntry.num (Dec.mk 0 (-1))),
  ("Positive electrode active material volume fraction", PEntry.num (Dec.mk 665 (-3))),
  ("Positive electrode charge transfer coefficient", PEntry.num (Dec.mk 5 (-1))),
  ("Positive electrode conductivity [S.m-1]", PEntry.num (Dec.mk 18 (-2))),
  ("Positive electrode density [kg.m-3]", PEntry.num (Dec.mk 32620 (-1))),
  ("Positive electrode diffusivity [m2.s-1]", PEntry.num (Dec.mk 4 (-15))),
  ("Positive electrode double-layer capacity [F.m-2]", PEntry.num (Dec.mk 2 (-1))),
  ("Positive electrode exchange-current density [A.m-2]", PEntry.fn "nmc_LGM50_electrolyte_exchange_current_density_Chen2020"),
  ("Positive electrode porosity", PEntry.num (Dec.mk 335 (-3))),
  ("Positive electrode reaction-driven LAM factor [m3.mol-1]", PEntry.num (Dec.mk 0 (-1))),
  ("Positive electrode specific heat capacity [J.kg-1.K-1]", PEntry.num (Dec.mk 7000 (-1))),
  ("Positive electrode thermal conductivity [W.m-1.K-1]", PEntry.num (Dec.mk 21 (-1))),
  ("Positive electrode thickness [m]", PEntry.num (Dec.mk 756 (-7))),
  ("Positive particle radius [m]", PEntry.num (Dec.mk 522 (-8))),
  ("Ratio of lithium moles to SEI moles", PEntry.num (Dec.mk 20 (-1))),
  ("Reference temperature [K]", PEntry.num (Dec.mk 29815 (-2))),
  ("SEI growth activation energy [J.mol-1]", PEntry.num (Dec.mk 0 (-1))),
  ("SEI kinetic rate constant [m.s-1]", PEntry.num (Dec.mk 1 (-12))),
  ("SEI open-circuit potential [V]", PEntry.num (Dec.mk 4 (-1))),
  ("SEI reaction exchange current density [A.m-2]", PEntry.num (Dec.mk 15 (-8))),
  ("SEI resistivity [Ohm.m]", PEntry.num (Dec.mk 2000000 (-1))),
  ("Separator Bruggeman coefficient (electrolyte)", PEntry.num (Dec.mk 15 (-1))),
  ("Separator density [kg.m-3]", PEntry.num (Dec.mk 3970 (-1))),
  ("Separator porosity", PEntry.num (Dec.mk 47 (-2))),
  ("Separator specific heat capacity [J.kg-1.K-1]", PEntry.num (Dec.mk 7000 (-1))),
  ("Separator thermal conductivity [W.m-1.K-1]", PEntry.num (Dec.mk 16 (-2))),
  ("Separator thickness [m]", PEntry.num (Dec.mk 12 (-6))),
  ("Thermodynamic factor", PEntry.num (Dec.mk 10 (-1))),
  ("Total heat transfer coefficient [W.m-2.K-1]", PEntry.num (Dec.mk 100 (-1))),
  ("Upper voltage cut-off [V]", PEntry.num (Dec.mk 42 (-1))),
  ("citations", PEntry.strs ["Chen2020"])]

/-- The contents of the built-in parameter sets referenced by the
notebooks.  The `Chen2020` contents (`chen2020` above) are recorded in
the repository as the printed output of the cell that constructs the
set; for `Ai2020` the repository records nothing, so its contents are
unknown (`some none`). -/
def paramSetContents (s : String) : Option (Option (List (String × PEntry))) :=
  if s = "Chen2020" then some (some chen2020)
  else if s = "Ai2020" then some none
  else none

/-- Evaluate a library call: allocate objects, perform the observable
state change, emit the trace event, and return the call's value. -/
def evalCall (st : State) : CallE → Option (Value × State)
  | .model kind nameE optsE => do
      let name ← evalOptName st nameE
      let opts ← evalOptDict st optsE
      let id := st.models.length
      let st' := { st with models := st.models ++ [ModelObj.mk kind name opts] }
      some (.atom (.modelRef id), st'.emit (.evModel id kind))
  | .simulation mE pvE => do
      let mv ← evalA st mE
      match mv with
      | .atom (.modelRef mid) => do
          let _ ← st.models.get? mid
          let pvId ← (match pvE with
            | none => some none
            | some e => do
                let v ← evalA st e
                match v with
                | .atom (.pvRef pid) => some (some pid)
                | _ => none)
          let id := st.sims.length
          let st' := { st with sims := st.sims ++ [SimObj.mk mid pvId false] }
          some (.atom (.simRef id), st'.emit (.evSimulation id mid pvId))
      | _ => none
  | .parameterValues sE => do
      let sv ← evalA st sE
      match sv with
      | .atom (.str s) => do
          let contents ← paramSetContents s
          let id := st.pvs.length
          let st' := { st with pvs := st.pvs ++ [PvObj.mk s contents] }
          some (.atom (.pvRef id), st'.emit (.evParameterValues id s))
      | _ => none
  | .solve obj tspanK inputsK => do
      let ov ← st.env.lookup obj
      match ov with
      | .atom (.simRef sid) => do
          let simObj ← st.sims.get? sid
          let tv ← evalKw st tspanK
          match tv with
          | .vlist ts => do
              let ins ← evalOptDict st inputsK
              let solId := st.sols.length
              let st' := { st with
                sims := st.sims.set sid { simObj with solved := true },
                sols := st.sols ++ [SolObj.mk sid ts ins] }
              some (.atom (.solRef solId), st'.emit (.evSolve sid solId ts ins))
          | _ => none
      | _ => none
  | .plotMethod obj varsK => do
      let ov ← st.env.lookup obj
      match ov with
      | .atom (.simRef sid) => do
          let simObj ← st.sims.get? sid
          match varsK with
          | none => some (.quickPlot, st.emit (.evPlot sid simObj.solved))
          | some _ => none
      | .atom (.solRef lid) => do
          let _ ← st.sols.get? lid
          let vars ← evalOptStrList st varsK
          match vars with
          | some ss => some (.quickPlot, st.emit (.evSolutionPlot lid ss))
          | none => none
      | _ => none
  | .dynamicPlot argE labelsE outK => do
      let av ← evalA st argE
      match av with
      | .vlist atoms => do
          let labels ← (match labelsE with
            | none => some none
            | some e => do
                let v ← evalA st e
                match v with
                | .vlist xs => do
                    let ss ← atomsToStrings xs
                    some (some ss)
                | _ => none)
          let out ← evalOptStrList st outK
          let ok := atoms.all (solvedAtom st)
          some (.quickPlot, st.emit (.evDynamicPlot atoms labels out ok))
      | _ => none
  | .submodelsAttr obj => do
      let ov ← st.env.lookup obj
      match ov with
      | .atom (.modelRef mid) => do
          let m ← st.models.get? mid
          some (.submodelsOf m.kind, st.emit (.evSubmodels mid m.kind))
      | _ => none

/-- Evaluate a right-hand-side expression. -/
def evalExpr (st : State) : Expr → Option (Value × State)
  | .a e => do
      let v ← evalA st e
      some (v, st)
  | .list xs => do
      let vs ← xs.mapM (evalA st)
      let atoms ← vs.mapM coerceAtom
      some (.vlist atoms, st)
  | .call c => evalCall st c
  | .listOfCalls cs => do
      let (atoms, st') ← cs.foldlM (fun (acc : List Atom × State) c => do
        let (v, s') ← evalCall acc.2 c
        let a ← coerceAtom v
        some (acc.1 ++ [a], s')) (([] : List Atom), st)
      some (.vlist atoms, st')

/-- Execute a simple statement. -/
def execSimple (st : State) : SimpleStmt → Option State
  | .assign x e => do
      let (v, st') ← evalExpr st e
      some (st'.setVar x v)
  | .setIndex x keyE vE => do
      let xv ← st.env.lookup x
      match xv with
      | .atom (.pvRef pid) => do
          let kv ← evalA st keyE
          match kv with
          | .atom (.str key) => do
              let vv ← evalA st vE
              let va ← coerceAtom vv
              let pe ← toPEntry va
              let pv ← st.pvs.get? pid
              match pv.entries with
              | some es =>
                  let pv' := { pv with entries := some (setEntry es key pe) }
                  some (({ st with pvs := st.pvs.set pid pv' }).emit
                    (.evSetParam pid key pe))
              | none => none
          | _ => none
      | _ => none
  | .exprS e => do
      let (_, st') ← evalExpr st e
      some st'
  | .printS e => do
      let (_, st') ← evalExpr st e
      some (st'.emit .evPrint)
  | .append x e => do
      let (v, st') ← evalExpr st e
      let a ← coerceAtom v
      let xv ← st'.env.lookup x
      match xv with
      | .vlist xs => some (st'.setVar x (.vlist (xs ++ [a])))
      | _ => none

/-- Execute a list of simple statements in order. -/
def execBody (st : State) (body : List SimpleStmt) : Option State :=
  body.foldlM execSimple st

/-- Run a loop body once for each value of the iteration variable, in
order.  The loop variable stays bound after the loop (Python scoping). -/
def execIters (x : String) (body : List SimpleStmt) : List Value → State → Option State
  | [], st => some st
  | v :: vs, st => do
      let st' ← execBody (st.setVar x v) body
      execIters x body vs st'

/-- Execute a statement. -/
def execStmt (st : State) : Stmt → Option State
  | .importPybamm => some st
  | .simple s => execSimple st s
  | .forIn x iter body => do
      let (v, st') ← evalExpr st iter
      match v with
      | .vlist atoms => execIters x body (atoms.map Value.atom) st'
      | _ => none
  | .forRange x lo hi body =>
      execIters x body
        (((List.range (hi - lo).toNat).map (fun k => Value.atom (.int (lo + k)))))
        st
  | .tryExcept body handlers =>
      match execBody st body with
      | some st' => some st'
      | none => execBody st handlers
  | .funcDef n _ _ => some (st.setVar n (.atom (.fn n)))
  | .classDef n _ => some (st.setVar n (.atom (.fn n)))

/-- Execute one code cell. -/
def execCell (st : State) (c : List Stmt) : Option State :=
  c.foldlM execStmt st

/-- The empty initial state of the notebook kernel. -/
def initState : State := ⟨[], [], [], [], [], []⟩

/-- The time-span argument `[0, 3600]` passed to every `solve` call. -/
def tspan36 : KwVal := KwVal.list [AExpr.intLit 0, AExpr.intLit 3600]

/-- Code cell 1: `import pybamm`. -/
def cell0 : List Stmt := [Stmt.importPybamm]

/-- Code cell 2: `model = pybamm.lithium_ion.DFN()`. -/
def cell1 : List Stmt :=
  [Stmt.simple (SimpleStmt.assign "model" (Expr.call (CallE.model ModelKind.dfn none none)))]

/-- Code cell 3: `simulation = pybamm.Simulation(model)`. -/
def cell2 : List Stmt :=
  [Stmt.simple (SimpleStmt.assign "simulation"
    (Expr.call (CallE.simulation (AExpr.var "model") none)))]

/-- Code cell 4: `simulation.solve([0, 3600])`. -/
def cell3 : List Stmt :=
  [Stmt.simple (SimpleStmt.exprS (Expr.call (CallE.solve "simulation" tspan36 none)))]

/-- Code cell 5: `simulation.plot()`. -/
def cell4 : List Stmt :=
  [Stmt.simple (SimpleStmt.exprS (Expr.call (CallE.plotMethod "simulation" none)))]

/-- Code cell 6: the model-comparison cell (SPM / SPMe / DFN). -/
def cell5 : List Stmt :=
  [Stmt.simple (SimpleStmt.assign "models" (Expr.listOfCalls
    [CallE.model ModelKind.spm none none,
     CallE.model ModelKind.spme none none,
     CallE.model ModelKind.dfn none none])),
   Stmt.simple (SimpleStmt.assign "simulations" (Expr.list [])),
   Stmt.forIn "model" (Expr.a (AExpr.var "models"))
     [SimpleStmt.assign "simulation" (Expr.call (CallE.simulation (AExpr.var "model") none)),
      SimpleStmt.exprS (Expr.call (CallE.solve "simulation" tspan36 none)),
      SimpleStmt.append "simulations" (Expr.a (AExpr.var "simulation"))],
   Stmt.simple (SimpleStmt.exprS (Expr.call
     (CallE.dynamicPlot (AExpr.var "simulations") none none)))]

/-- Code cell 7: construct and print the `Chen2020` parameter set. -/
def cell6 : List Stmt :=
  [Stmt.simple (SimpleStmt.assign "parameter_values"
    (Expr.call (CallE.parameterValues (AExpr.strLit "Chen2020")))),
   Stmt.simple (SimpleStmt.printS (Expr.a (AExpr.var "parameter_values")))]

/-- Code cell 8: override the current, rebuild the simulation, solve. -/
def cell7 : List Stmt :=
  [Stmt.simple (SimpleStmt.setIndex "parameter_values"
    (AExpr.strLit "Current function [A]") (AExpr.numLit (Dec.mk 20 (-1)))),
   Stmt.simple (SimpleStmt.assign "sim" (Expr.call
     (CallE.simulation (AExpr.var "model") (some (AExpr.var "parameter_values"))))),
   Stmt.simple (SimpleStmt.exprS (Expr.call (CallE.solve "sim" tspan36 none)))]

/-- The body of the input-parameter sweep loop of code cell 9. -/
def sweepBody : List SimpleStmt :=
  [SimpleStmt.assign "sol" (Expr.call (CallE.solve "sim" tspan36
     (some (KwVal.dict [("Current function [A]", AExpr.var "i")])))),
   SimpleStmt.append "solutions" (Expr.a (AExpr.var "sol")),
   SimpleStmt.append "labels" (Expr.a (AExpr.fstr "Current = " "i" " [A]"))]

/-- Code cell 9: the input-parameter sweep. -/
def cell8 : List Stmt :=
  [Stmt.simple (SimpleStmt.assign "parameter_values"
    (Expr.call (CallE.parameterValues (AExpr.strLit "Chen2020")))),
   Stmt.simple (SimpleStmt.setIndex "parameter_values"
    (AExpr.strLit "Current function [A]") (AExpr.strLit "[input]")),
   Stmt.simple (SimpleStmt.assign "model" (Expr.call (CallE.model ModelKind.spm none none))),
   Stmt.simple (SimpleStmt.assign "sim" (Expr.call
     (CallE.simulation (AExpr.var "model") (some (AExpr.var "parameter_values"))))),
   Stmt.simple (SimpleStmt.assign "solutions" (Expr.list [])),
   Stmt.simple (SimpleStmt.assign "labels" (Expr.list [])),
   Stmt.forRange "i" 1 5 sweepBody,
   Stmt.simple (SimpleStmt.exprS (Expr.call
     (CallE.dynamicPlot (AExpr.var "solutions") (some (AExpr.var "labels")) none)))]

/-- Code cell 10: `model.submodels`. -/
def cell9 : List Stmt :=
  [Stmt.simple (SimpleStmt.exprS (Expr.call (CallE.submodelsAttr "model")))]

/-- Code cell 11: the thermal-model comparison. -/
def cell10 : List Stmt :=
  [Stmt.simple (SimpleStmt.assign "thermal_options"
    (Expr.list [AExpr.strLit "isothermal", AExpr.strLit "x-full"])),
   Stmt.simple (SimpleStmt.assign "solutions" (Expr.list [])),
   Stmt.forIn "option" (Expr.a (AExpr.var "thermal_options"))
     [SimpleStmt.assign "model" (Expr.call (CallE.model ModelKind.dfn
        (some (AExpr.var "option")) (some (KwVal.dict [("thermal", AExpr.var "option")])))),
      SimpleStmt.assign "simulation" (Expr.call (CallE.simulation (AExpr.var "model") none)),
      SimpleStmt.append "solutions" (Expr.call (CallE.solve "simulation" tspan36 none))],
   Stmt.simple (SimpleStmt.exprS (Expr.call
     (CallE.dynamicPlot (AExpr.var "solutions") none (some (KwVal.list
       [AExpr.strLit "Negative particle surface concentration [mol.m-3]",
        AExpr.strLit "Electrolyte concentration [mol.m-3]",
        AExpr.strLit "Positive particle surface concentration [mol.m-3]",
        AExpr.strLit "Negative electrode potential [V]",
        AExpr.strLit "Electrolyte potential [V]",
        AExpr.strLit "Positive electrode potential [V]",
        AExpr.strLit "Current [A]",
        AExpr.strLit "Voltage [V]",
        AExpr.strLit "Cell temperature [K]"])))))]

/-- Code cell 12: the particle-mechanics example. -/
def cell11 : List Stmt :=
  [Stmt.simple (SimpleStmt.assign "model" (Expr.call (CallE.model ModelKind.dfn none
     (some (KwVal.dict [("particle mechanics",
       AExpr.tupleLit (AExpr.strLit "swelling only")
         (AExpr.strLit "swelling and cracking"))]))))),
   Stmt.simple (SimpleStmt.assign "parameter_values"
     (Expr.call (CallE.parameterValues (AExpr.strLit "Ai2020")))),
   Stmt.simple (SimpleStmt.assign "simulation" (Expr.call
     (CallE.simulation (AExpr.var "model") (some (AExpr.var "parameter_values"))))),
   Stmt.simple (SimpleStmt.assign "solution"
     (Expr.call (CallE.solve "simulation" tspan36 none))),
   Stmt.simple (SimpleStmt.exprS (Expr.call (CallE.plotMethod "solution" (some (KwVal.list
     [AExpr.strLit "Negative particle surface radial stress [Pa]",
      AExpr.strLit "Negative particle surface tangential stress [Pa]",
      AExpr.strLit "Negative particle surface displacement [m]",
      AExpr.strLit "Negative particle crack length [m]",
      AExpr.strLit "Positive particle surface radial stress [Pa]",
      AExpr.strLit "Positive particle surface tangential stress [Pa]",
      AExpr.strLit "Positive particle surface displacement [m]",
      AExpr.strLit "Positive particle crack length [m]"])))))]

/-- The twelve code cells shared (byte for byte, see the source-text
equality below) by `src/pybamm.ipynb` and `src/unnamed/part_000`. -/
def cells : List (List Stmt) :=
  [cell0, cell1, cell2, cell3, cell4, cell5, cell6, cell7, cell8, cell9, cell10, cell11]

/-- Run the first `n` code cells from the empty kernel state. -/
def runCells (n : ℕ) : Option State :=
  (cells.take n).foldlM execCell initState

/-- The state after the whole notebook has run. -/
def notebookRun : Option State := runCells 12

/-- The library-call events emitted by code cell `k` (0-based). -/
def cellEvents (k : ℕ) : Option (List Event) := do
  let st₁ ← runCells k
  let st₂ ← runCells (k + 1)
  some (st₂.trace.drop st₁.trace.length)

/-- The source text of the twelve code cells of `src/pybamm.ipynb`, in
notebook order, each cell's `source` lines concatenated verbatim. -/
def pybammIpynbCodeCells : List String := [
  "import pybamm",
  "model = pybamm.lithium_ion.DFN()",
  "simulation = pybamm.Simulation(model)",
  "simulation.solve([0, 3600])",
  "simulation.plot()",
  "models = [\n\tpybamm.lithium_ion.SPM(),\n\tpybamm.lithium_ion.SPMe(),\n\tpybamm.lithium_ion.DFN(),\n]\nsimulations = []\nfor model in models:\n\tsimulation = pybamm.Simulation(model)\n\tsimulation.solve([0, 3600])\n\tsimulations.append(simulation)\npybamm.dynamic_plot(simulations)\n",
  "parameter_values = pybamm.ParameterValues(\"Chen2020\")\nprint(parameter_values)",
  "parameter_values[\"Current function [A]\"] = 2.0\nsim = pybamm.Simulation(model, parameter_values=parameter_values)\nsim.solve([0, 3600])",
  "parameter_values = pybamm.ParameterValues(\"Chen2020\")\nparameter_values[\"Current function [A]\"] = \"[input]\"\nmodel = pybamm.lithium_ion.SPM()\nsim = pybamm.Simulation(model, parameter_values=parameter_values)\n\nsolutions = []\nlabels = []\nfor i in range(1, 5):\n    sol = sim.solve([0, 3600], inputs=\x7b \"Current function [A]\": i\x7d)\n    solutions.append(sol)\n    labels.append(f\"Current = \x7bi\x7d [A]\")\npybamm.dynamic_plot(solutions, labels=labels)\n    \n\n",
  "model.submodels",
  "thermal_options = [\"isothermal\", \"x-full\"]\nsolutions = []\n\nfor option in thermal_options:\n\tmodel = pybamm.lithium_ion.DFN(name=option, options=\x7b\"thermal\": option\x7d)\n\tsimulation = pybamm.Simulation(model)\n\tsolutions.append(simulation.solve([0, 3600]))\n\npybamm.dynamic_plot(\n    solutions,\n    output_variables=[\n        \"Negative particle surface concentration [mol.m-3]\",\n        \"Electrolyte concentration [mol.m-3]\",\n        \"Positive particle surface concentration [mol.m-3]\",\n        \"Negative electrode potential [V]\",\n        \"Electrolyte potential [V]\",\n        \"Positive electrode potential [V]\",\n        \"Current [A]\",\n        \"Voltage [V]\",\n        \"Cell temperature [K]\",\n    ],\n  )",
  "model = pybamm.lithium_ion.DFN(\n    options=\x7b\"particle mechanics\": (\"swelling only\", \"swelling and cracking\")\x7d\n)\nparameter_values = pybamm.ParameterValues(\"Ai2020\")\nsimulation = pybamm.Simulation(model, parameter_values=parameter_values)\nsolution = simulation.solve([0, 3600])\n\nsolution.plot([\n    \"Negative particle surface radial stress [Pa]\",\n    \"Negative particle surface tangential stress [Pa]\",\n    \"Negative particle surface displacement [m]\",\n\t\"Negative particle crack length [m]\",\n    \"Positive particle surface radial stress [Pa]\",\n    \"Positive particle surface tangential stress [Pa]\",\n    \"Positive particle surface displacement [m]\",\n    \"Positive particle crack length [m]\",\n])"]

/-- The source text of the twelve code cells of `src/unnamed/part_000`,
in notebook order, each cell's `source` lines concatenated verbatim. -/
def part000CodeCells : List String := [
  "import pybamm",
  "model = pybamm.lithium_ion.DFN()",
  "simulation = pybamm.Simulation(model)",
  "simulation.solve([0, 3600])",
  "simulation.plot()",
  "models = [\n\tpybamm.lithium_ion.SPM(),\n\tpybamm.lithium_ion.SPMe(),\n\tpybamm.lithium_ion.DFN(),\n]\nsimulations = []\nfor model in models:\n\tsimulation = pybamm.Simulation(model)\n\tsimulation.solve([0, 3600])\n\tsimulations.append(simulation)\npybamm.dynamic_plot(simulations)\n",
  "parameter_values = pybamm.ParameterValues(\"Chen2020\")\nprint(parameter_values)",
  "parameter_values[\"Current function [A]\"] = 2.0\nsim = pybamm.Simulation(model, parameter_values=parameter_values)\nsim.solve([0, 3600])",
  "parameter_values = pybamm.ParameterValues(\"Chen2020\")\nparameter_values[\"Current function [A]\"] = \"[input]\"\nmodel = pybamm.lithium_ion.SPM()\nsim = pybamm.Simulation(model, parameter_values=parameter_values)\n\nsolutions = []\nlabels = []\nfor i in range(1, 5):\n    sol = sim.solve([0, 3600], inputs=\x7b \"Current function [A]\": i\x7d)\n    solutions.append(sol)\n    labels.append(f\"Current = \x7bi\x7d [A]\")\npybamm.dynamic_plot(solutions, labels=labels)\n    \n\n",
  "model.submodels",
  "thermal_options = [\"isothermal\", \"x-full\"]\nsolutions = []\n\nfor option in thermal_options:\n\tmodel = pybamm.lithium_ion.DFN(name=option, options=\x7b\"thermal\": option\x7d)\n\tsimulation = pybamm.Simulation(model)\n\tsolutions.append(simulation.solve([0, 3600]))\n\npybamm.dynamic_plot(\n    solutions,\n    output_variables=[\n        \"Negative particle surface concentration [mol.m-3]\",\n        \"Electrolyte concentration [mol.m-3]\",\n        \"Positive particle surface concentration [mol.m-3]\",\n        \"Negative electrode potential [V]\",\n        \"Electrolyte potential [V]\",\n        \"Positive electrode potential [V]\",\n        \"Current [A]\",\n        \"Voltage [V]\",\n        \"Cell temperature [K]\",\n    ],\n  )",
  "model = pybamm.lithium_ion.DFN(\n    options=\x7b\"particle mechanics\": (\"swelling only\", \"swelling and cracking\")\x7d\n)\nparameter_values = pybamm.ParameterValues(\"Ai2020\")\nsimulation = pybamm.Simulation(model, parameter_values=parameter_values)\nsolution = simulation.solve([0, 3600])\n\nsolution.plot([\n    \"Negative particle surface radial stress [Pa]\",\n    \"Negative particle surface tangential stress [Pa]\",\n    \"Negative particle surface displacement [m]\",\n\t\"Negative particle crack length [m]\",\n    \"Positive particle surface radial stress [Pa]\",\n    \"Positive particle surface tangential stress [Pa]\",\n    \"Positive particle surface displacement [m]\",\n    \"Positive particle crack length [m]\",\n])"]

/-- Does a (possibly nested) argument expression consist of literal
constants only?  Variable references and f-strings are not literal. -/
def AExpr.isLiteral : AExpr → Bool
  | AExpr.intLit _ => true
  | AExpr.numLit _ => true
  | AExpr.strLit _ => true
  | AExpr.var _ => false
  | AExpr.tupleLit x y => x.isLiteral && y.isLiteral
  | AExpr.fstr _ _ _ => false

/-- Is the atomic expression a literal or a plain variable reference
(no arithmetic, no string formatting, no calls)? -/
def AExpr.isLitOrVar : AExpr → Bool
  | AExpr.intLit _ => true
  | AExpr.numLit _ => true
  | AExpr.strLit _ => true
  | AExpr.var _ => true
  | AExpr.tupleLit x y => x.isLitOrVar && y.isLitOrVar
  | AExpr.fstr _ _ _ => false

/-- Literality of a call argument. -/
def KwVal.isLiteral : KwVal → Bool
  | KwVal.a e => e.isLiteral
  | KwVal.list xs => xs.all AExpr.isLiteral
  | KwVal.dict entries => entries.all (fun p => p.2.isLiteral)

/-- A call argument built from literals and variable references only. -/
def KwVal.isLitOrVar : KwVal → Bool
  | KwVal.a e => e.isLitOrVar
  | KwVal.list xs => xs.all AExpr.isLitOrVar
  | KwVal.dict entries => entries.all (fun p => p.2.isLitOrVar)

/-- The arguments supplied to a library call (positional and keyword,
in source order). -/
def CallE.argKws : CallE → List KwVal
  | CallE.model _ name opts => (name.map KwVal.a).toList ++ opts.toList
  | CallE.simulation m pv => KwVal.a m :: (pv.map KwVal.a).toList
  | CallE.parameterValues s => [KwVal.a s]
  | CallE.solve _ t ins => t :: ins.toList
  | CallE.plotMethod _ vars => vars.toList
  | CallE.dynamicPlot arg labels out =>
      KwVal.a arg :: (labels.map KwVal.a).toList ++ out.toList
  | CallE.submodelsAttr _ => []

/-- The library calls occurring (syntactically) in an expression. -/
def Expr.callsIn : Expr → List CallE
  | Expr.a _ => []
  | Expr.list _ => []
  | Expr.call c => [c]
  | Expr.listOfCalls cs => cs

/-- The library calls occurring in a simple statement. -/
def SimpleStmt.callsIn : SimpleStmt → List CallE
  | SimpleStmt.assign _ e => e.callsIn
  | SimpleStmt.setIndex _ _ _ => []
  | SimpleStmt.exprS e => e.callsIn
  | SimpleStmt.printS e => e.callsIn
  | SimpleStmt.append _ e => e.callsIn

/-- The library calls occurring in a statement. -/
def Stmt.callsIn : Stmt → List CallE
  | Stmt.importPybamm => []
  | Stmt.simple s => s.callsIn
  | Stmt.forIn _ iter body => iter.callsIn ++ (body.map SimpleStmt.callsIn).flatten
  | Stmt.forRange _ _ _ body => (body.map SimpleStmt.callsIn).flatten
  | Stmt.tryExcept body handlers =>
      ((body ++ handlers).map SimpleStmt.callsIn).flatten
  | Stmt.funcDef _ _ body => (body.map SimpleStmt.callsIn).flatten
  | Stmt.classDef _ body => (body.map SimpleStmt.callsIn).flatten

/-- Every library call of the twelve-cell program, in source order. -/
def programCalls : List CallE :=
  (cells.map (fun c => (c.map Stmt.callsIn).flatten)).flatten

/-- The arguments a simple statement supplies across the library
boundary: the arguments of its library calls, together with the key and
value of a subscript assignment on a parameter-value container (a
parameter override is handed to the library's container object). -/
def SimpleStmt.libArgs : SimpleStmt → List KwVal
  | SimpleStmt.setIndex _ k v => [KwVal.a k, KwVal.a v]
  | s => (s.callsIn.map CallE.argKws).flatten

/-- The library-boundary arguments of a statement. -/
def Stmt.libArgs : Stmt → List KwVal
  | Stmt.simple s => s.libArgs
  | Stmt.forIn _ iter body =>
      (iter.callsIn.map CallE.argKws).flatten ++ (body.map SimpleStmt.libArgs).flatten
  | Stmt.forRange _ _ _ body => (body.map SimpleStmt.libArgs).flatten
  | Stmt.tryExcept body handlers => ((body ++ handlers).map SimpleStmt.libArgs).flatten
  | Stmt.funcDef _ _ body => (body.map SimpleStmt.libArgs).flatten
  | Stmt.classDef _ body => (body.map SimpleStmt.libArgs).flatten
  | _ => []

/-- Every argument the program supplies across the library boundary. -/
def programLibArgs : List KwVal :=
  (cells.map (fun c => (c.map Stmt.libArgs).flatten)).flatten

/-- Does the statement intercept failures (a `try`/`except` block)? -/
def Stmt.intercepts : Stmt → Bool
  | Stmt.tryExcept _ _ => true
  | _ => false

/-- Is the statement a `def` or `class` statement? -/
def Stmt.definesFn : Stmt → Bool
  | Stmt.funcDef _ _ _ => true
  | Stmt.classDef _ _ => true
  | _ => false

/-- Does `needle` occur as a contiguous substring of the character list? -/
def containsSub (needle : List Char) : List Char → Bool
  | [] => false
  | c :: rest => needle.isPrefixOf (c :: rest) || containsSub needle rest

/-- Does `needle` occur as a substring of `hay`? -/
def strContains (hay needle : String) : Bool :=
  containsSub needle.toList hay.toList

/-- The time-span argument of each `solve` call of the program. -/
def solveTspans : List KwVal :=
  programCalls.filterMap (fun c => match c with
    | CallE.solve _ t _ => some t
    | _ => none)

/-- The time spans of the `solve` events of a trace. -/
def traceSolveTspans (tr : List Event) : List (List Atom) :=
  tr.filterMap (fun e => match e with
    | Event.evSolve _ _ t _ => some t
    | _ => none)

/-- Check, left to right, that every simulation construction refers to a
model constructed by an earlier event, accumulating constructed model
ids. -/
def simsAfterModels : List Event → List ℕ → Bool
  | [], _ => true
  | Event.evModel id _ :: rest, ms => simsAfterModels rest (id :: ms)
  | Event.evSimulation _ mid _ :: rest, ms =>
      ms.contains mid && simsAfterModels rest ms
  | _ :: rest, ms => simsAfterModels rest ms

/-- Check, left to right, that every `solve` event is on a simulation
constructed by an earlier event. -/
def solvesAfterSims : List Event → List ℕ → Bool
  | [], _ => true
  | Event.evSimulation id _ _ :: rest, ss => solvesAfterSims rest (id :: ss)
  | Event.evSolve sid _ _ _ :: rest, ss =>
      ss.contains sid && solvesAfterSims rest ss
  | _ :: rest, ss => solvesAfterSims rest ss

/-- Every plotting event of the trace renders already-solved objects:
`plot` on a simulation whose `solve` has run, `dynamic_plot` on a list
of solved simulations or solution objects (solution objects exist only
as results of `solve`). -/
def plotsAfterSolve : List Event → Bool
  | [] => true
  | Event.evPlot _ solved :: rest => solved && plotsAfterSolve rest
  | Event.evDynamicPlot _ _ _ ok :: rest => ok && plotsAfterSolve rest
  | _ :: rest => plotsAfterSolve rest

/-- The state just before the sweep loop of code cell 9 runs: the first
six statements of the cell (parameter set, `"[input]"` override, SPM
model, simulation, `solutions = []`, `labels = []`) executed after the
eight preceding cells. -/
def sweepStart : Option State := do
  let st ← runCells 8
  (cell8.take 6).foldlM execStmt st

/-- The state after `n` iterations of the sweep loop (`n ≤ 4`). -/
def sweepIter (n : ℕ) : Option State := do
  let st ← sweepStart
  execIters "i" sweepBody
    (([1, 2, 3, 4].take n).map (fun k => Value.atom (Atom.int k))) st

/-- The list bound to variable `x`, if it holds a list. -/
def envList (st : State) (x : String) : Option (List Atom) :=
  match st.env.lookup x with
  | some (Value.vlist xs) => some xs
  | _ => none

/-- The length of the list bound to `x` after `n` sweep iterations. -/
def sweepLen (x : String) (n : ℕ) : Option ℕ := do
  let st ← sweepIter n
  let xs ← envList st x
  some xs.length

/-- Updating an association list at one key leaves the binding of every
other key unchanged. -/
theorem lookup_setEntry_of_ne {α : Type} (l : List (String × α)) (k k' : String) (v : α)
    (h : k' ≠ k) : (setEntry l k v).lookup k' = l.lookup k' := by
  have hbeq : (k' == k) = false := beq_eq_false_iff_ne.mpr h
  induction l with
  | nil => simp [setEntry, List.lookup, hbeq]
  | cons p rest ih =>
      obtain ⟨a, b⟩ := p
      by_cases hp : a = k
      · subst hp
        simp [setEntry, List.lookup, hbeq]
      · cases hb : k' == a <;> simp [setEntry, hp, List.lookup, hb, ih]

set_option maxRecDepth 400000

/-- Claim C1: every `solve` call of the notebooks' shared twelve-cell
program — six call sites syntactically, twelve executed calls in the
run — passes the two-element time interval `[0, 3600]`. -/
theorem solve_horizon_fixed :
    solveTspans.length = 6 ∧
    solveTspans.all (fun t => t == tspan36) = true ∧
    tspan36 = KwVal.list [AExpr.intLit 0, AExpr.intLit 3600] ∧
    (notebookRun.map (fun st => (traceSolveTspans st.trace).length)) = some 12 ∧
    (notebookRun.map (fun st => (traceSolveTspans st.trace).all
        (fun t => t == [Atom.int 0, Atom.int 3600]))) = some true := by
  decide

/-- Claim C2, counterexample: not every argument supplied to a library
call is a literal constant.  `pybamm.Simulation(model)` passes the
variable `model`, and the sweep's `solve` call passes an `inputs`
dictionary whose value is the loop variable `i`. -/
theorem library_args_not_all_literal :
    programLibArgs.all KwVal.isLiteral = false ∧
    CallE.simulation (AExpr.var "model") none ∈ programCalls ∧
    (CallE.simulation (AExpr.var "model") none).argKws.all KwVal.isLiteral = false ∧
    CallE.solve "sim" tspan36
        (some (KwVal.dict [("Current function [A]", AExpr.var "i")])) ∈ programCalls ∧
    KwVal.isLiteral (KwVal.dict [("Current function [A]", AExpr.var "i")]) = false := by
  decide

/-- Claim C2, amended: every argument supplied across the library
boundary is a literal or a plain variable reference (possibly inside a
list or dictionary literal) — never an arithmetic or otherwise computed
expression — and every `solve` time span is fully literal. -/
theorem library_args_literal_or_var :
    programLibArgs.all KwVal.isLitOrVar = true ∧
    solveTspans.all KwVal.isLiteral = true := by
  decide

/-- Claim C3: no statement of either notebook intercepts failures — the
program contains no `try`/`except` construct, and the twelve cell
sources of both notebooks contain none of the tokens `try`, `except`,
`finally`, `raise`. -/
theorem no_failure_interception :
    cells.flatten.all (fun s => !s.intercepts) = true ∧
    pybammIpynbCodeCells.all (fun c =>
      !(strContains c "try") && !(strContains c "except") &&
      !(strContains c "finally") && !(strContains c "raise")) = true ∧
    part000CodeCells.all (fun c =>
      !(strContains c "try") && !(strContains c "except") &&
      !(strContains c "finally") && !(strContains c "raise")) = true := by
  decide

/-- Claim C4: the notebook program runs to completion as one
deterministic sequence (the interpreter is a sequential fold over the
cells, so no two steps overlap); in its trace every simulation is
constructed from a model constructed by an earlier event, every `solve`
is on a previously constructed simulation, and every `plot` /
`dynamic_plot` event renders only solved simulations or solution
objects. -/
theorem linear_construct_solve_plot_order :
    notebookRun.isSome = true ∧
    (notebookRun.map (fun st => simsAfterModels st.trace [])) = some true ∧
    (notebookRun.map (fun st => solvesAfterSims st.trace [])) = some true ∧
    (notebookRun.map (fun st => plotsAfterSolve st.trace)) = some true := by
  decide

/-- Claim C5: the sweep cell (code cell 9) constructs one simulation
(id 5) and solves exactly that simulation four times with inputs
`Current function [A]` equal to 1, 2, 3, 4 in order, then calls
`dynamic_plot` with the four resulting solutions and the four labels
`"Current = 1 [A]"` … `"Current = 4 [A]"` in the same order. -/
theorem sweep_cell_trace :
    cellEvents 8 = some
      [Event.evParameterValues 1 "Chen2020",
       Event.evSetParam 1 "Current function [A]" (PEntry.str "[input]"),
       Event.evModel 4 ModelKind.spm,
       Event.evSimulation 5 4 (some 1),
       Event.evSolve 5 5 [Atom.int 0, Atom.int 3600] [("Current function [A]", Atom.int 1)],
       Event.evSolve 5 6 [Atom.int 0, Atom.int 3600] [("Current function [A]", Atom.int 2)],
       Event.evSolve 5 7 [Atom.int 0, Atom.int 3600] [("Current function [A]", Atom.int 3)],
       Event.evSolve 5 8 [Atom.int 0, Atom.int 3600] [("Current function [A]", Atom.int 4)],
       Event.evDynamicPlot [Atom.solRef 5, Atom.solRef 6, Atom.solRef 7, Atom.solRef 8]
         (some ["Current = 1 [A]", "Current = 2 [A]", "Current = 3 [A]", "Current = 4 [A]"])
         none true] ∧
    ((cellEvents 8).map (fun evs => evs.filterMap (fun e => match e with
        | Event.evSolve sid _ _ ins => some (sid, ins)
        | _ => none)))
      = some [(5, [("Current function [A]", Atom.int 1)]),
              (5, [("Current function [A]", Atom.int 2)]),
              (5, [("Current function [A]", Atom.int 3)]),
              (5, [("Current function [A]", Atom.int 4)])] := by
  decide

/-- Claim C6: after `parameter_values["Current function [A]"] = 2.0`
(code cell 8) the container holds the `Chen2020` entries with exactly
that one entry overwritten to `2.0`; every other key still looks up its
`Chen2020` value; and the simulation constructed next in the same cell
(sim 4) is built with a reference to exactly this substituted container
(pv 0), in that order. -/
theorem substitution_frame_effect :
    ((runCells 8).bind (fun st => st.pvs.get? 0))
      = some (PvObj.mk "Chen2020"
          (some (setEntry chen2020 "Current function [A]" (PEntry.num (Dec.mk 20 (-1)))))) ∧
    (setEntry chen2020 "Current function [A]" (PEntry.num (Dec.mk 20 (-1)))).lookup "Current function [A]"
      = some (PEntry.num (Dec.mk 20 (-1))) ∧
    (∀ k, k ≠ "Current function [A]" →
      (setEntry chen2020 "Current function [A]" (PEntry.num (Dec.mk 20 (-1)))).lookup k
        = chen2020.lookup k) ∧
    cellEvents 7 = some
      [Event.evSetParam 0 "Current function [A]" (PEntry.num (Dec.mk 20 (-1))),
       Event.evSimulation 4 3 (some 0),
       Event.evSolve 4 4 [Atom.int 0, Atom.int 3600] []] ∧
    ((runCells 8).bind (fun st => st.sims.get? 4))
      = some (SimObj.mk 3 (some 0) true) := by
  refine ⟨by decide, by decide, ?_, by decide, by decide⟩
  intro k hk
  exact lookup_setEntry_of_ne chen2020 "Current function [A]" k (PEntry.num (Dec.mk 20 (-1))) hk

/-- Witness for claim C6 at the concrete key `"Ambient temperature
[K]"`: that entry is unchanged by the substitution. -/
theorem substitution_frame_effect_witness :
    (setEntry chen2020 "Current function [A]" (PEntry.num (Dec.mk 20 (-1)))).lookup
        "Ambient temperature [K]"
      = chen2020.lookup "Ambient temperature [K]" :=
  substitution_frame_effect.2.2.1 "Ambient temperature [K]" (by decide)

/-- Claim C7: the program contains no `def` or `class` statement (nor
any `lambda`): its statements are only imports, assignments, subscript
assignments, bare library-call expressions, `print`, `append`, and
`for` loops over literal ranges or previously built lists. -/
theorem no_custom_definitions :
    cells.flatten.all (fun s => !s.definesFn) = true ∧
    cells.length = 12 ∧
    pybammIpynbCodeCells.all (fun c =>
      !(strContains c "def") && !(strContains c "class") && !(strContains c "lambda")) = true ∧
    part000CodeCells.all (fun c =>
      !(strContains c "def") && !(strContains c "class") && !(strContains c "lambda")) = true := by
  decide

/-- Claim C8: the two notebooks contain the same twelve code cells with
byte-identical source text in the same order, so the embedded programs
denote the same computation. -/
theorem notebooks_code_cells_equal :
    pybammIpynbCodeCells = part000CodeCells ∧
    pybammIpynbCodeCells.length = 12 ∧
    part000CodeCells.length = 12 := by
  decide

/-- Claim C9: at the `model.submodels` cell, `model` is bound to the
SPM instance (model 4) constructed inside the sweep cell — not the DFN
instance (model 0) constructed at the start — so the submodel
composition displayed is the Single Particle Model's. -/
theorem submodels_model_is_sweep_spm :
    ((runCells 9).bind (fun st => st.env.lookup "model"))
      = some (Value.atom (Atom.modelRef 4)) ∧
    ((runCells 9).bind (fun st => st.models.get? 4))
      = some (ModelObj.mk ModelKind.spm none []) ∧
    cellEvents 9 = some [Event.evSubmodels 4 ModelKind.spm] ∧
    (cellEvents 8).map (fun evs => evs.contains (Event.evModel 4 ModelKind.spm))
      = some true ∧
    ((runCells 9).bind (fun st => st.models.get? 0))
      = some (ModelObj.mk ModelKind.dfn none []) ∧
    cellEvents 1 = some [Event.evModel 0 ModelKind.dfn] := by
  decide

/-- Claim C10: the sweep loop keeps `solutions` and `labels` at equal
length — both empty before the loop, both longer by one after each of
the four iterations — and at the `dynamic_plot` call both have length
four, with `labels[k]` naming the current `k+1` used to produce
`solutions[k]`. -/
theorem sweep_lists_lockstep :
    sweepLen "solutions" 0 = some 0 ∧
    sweepLen "labels" 0 = some 0 ∧
    (∀ n, n < 4 → sweepLen "solutions" (n + 1) = some (n + 1) ∧
                  sweepLen "labels" (n + 1) = some (n + 1)) ∧
    (runCells 8).bind (fun st => (cell8.take 7).foldlM execStmt st) = sweepIter 4 ∧
    (sweepIter 4).bind (fun st => envList st "solutions")
      = some [Atom.solRef 5, Atom.solRef 6, Atom.solRef 7, Atom.solRef 8] ∧
    (sweepIter 4).bind (fun st => envList st "labels")
      = some [Atom.str "Current = 1 [A]", Atom.str "Current = 2 [A]",
              Atom.str "Current = 3 [A]", Atom.str "Current = 4 [A]"] ∧
    (∀ k, k < 4 →
      ((runCells 9).bind (fun st => st.sols.get? (5 + k))).map SolObj.inputs
        = some [("Current function [A]", Atom.int (1 + (k : ℤ)))] ∧
      ((sweepIter 4).bind (fun st => (envList st "labels").bind (fun xs => xs.get? k)))
        = some (Atom.str ("Current = " ++ toString (1 + (k : ℤ)) ++ " [A]"))) := by
  decide

/-- Witness for claim C10 at concrete iteration counts: after three
iterations both lists have length three, and the third solution was
produced with input current 3. -/
theorem sweep_lists_lockstep_witness :
    (sweepLen "solutions" 3 = some 3 ∧ sweepLen "labels" 3 = some 3) ∧
    ((runCells 9).bind (fun st => st.sols.get? 7)).map SolObj.inputs
      = some [("Current function [A]", Atom.int 3)] := by
  exact ⟨sweep_lists_lockstep.2.2.1 2 (by decide),
         (sweep_lists_lockstep.2.2.2.2.2.2 2 (by decide)).1⟩

end Notebook
